import Mathlib

/-!
Verification of the categorization/binning pipeline of `build_charts.py`.

Modelling conventions:
* Optional floating-point columns (precipitation, temperature, ridership,
  percent-of-baseline) are modelled as `Option ℚ`; `pd.isna` is the `none`
  case.  A Python comparison such as `temp < 0` is false when `temp` is
  null/NaN, which the embedding makes explicit.
* Calendar dates are modelled by the numeric key `y * 10000 + m * 100 + d`,
  whose order agrees with chronological order of `pd.Timestamp` values at
  day granularity.
* Data frames are lists of records; `melt`, `merge` and `groupby` are
  spelled out as list operations.
-/

namespace BuildCharts

/-- Embeds `bin_precipitation` (build_charts.py, lines 47-56). -/
def bin_precipitation (val : Option ℚ) : String :=
  match val with
  | none => "No Data"
  | some v =>
    if v = 0 then "No Rain"
    else if v ≤ 1/10 then "Light Rain"
    else if v ≤ 1/2 then "Moderate Rain"
    else "Heavy Rain"

/-- Date key `y * 10000 + m * 100 + d`: compares like a calendar date. -/
def dkey (y m d : Nat) : Nat := y * 10000 + m * 100 + d

/-- Embeds `categorize_period` (build_charts.py, lines 119-126). -/
def categorize_period (date : Nat) : String :=
  if date < dkey 2020 3 15 then "Pre-Pandemic"
  else if date < dkey 2021 7 1 then "During Pandemic"
  else if date < dkey 2023 1 1 then "Recovery Phase"
  else "Post-Pandemic"

/-- The Python comparison `temp < 0`: false when `temp` is null/NaN. -/
def tempLtZero (temp : Option ℚ) : Bool :=
  match temp with
  | none => false
  | some t => decide (t < 0)

/-- Embeds `categorize_weather` (build_charts.py, lines 131-152).
The row's two fields are passed as the two arguments. -/
def categorize_weather (precip temp : Option ℚ) : Option String :=
  match precip with
  | none => none
  | some p =>
    if p = 0 then some "Sunny"
    else if tempLtZero temp ∧ 0 < p then
      if p < 5 then some "Light Snow"
      else if p < 15 then some "Moderate Snow"
      else some "Heavy Snow"
    else if p ≤ 2 then some "Drizzle"
    else if p ≤ 8 then some "Light Rain"
    else if p ≤ 20 then some "Moderate Rain"
    else if p ≤ 35 then some "Heavy Rain"
    else some "Storm"

/-- Embeds the COVID-band period assignment building `df_v1`
(build_charts.py, lines 275-279): a default label followed by three
overwriting masked assignments, evaluated at one date. -/
def df_v1_period (date : Nat) : String :=
  let p0 := "Post-COVID"
  let p1 := if date < dkey 2020 3 1 then "Pre-COVID" else p0
  let p2 := if dkey 2020 3 1 ≤ date ∧ date ≤ dkey 2021 6 30 then "During-COVID" else p1
  let p3 := if dkey 2021 6 30 < date ∧ date ≤ dkey 2022 12 31 then "Recovery" else p2
  p3

/-! ### Grouped-mean aggregation (heat_grouped, build_charts.py lines 67-73) -/

/-- The seven day-of-week categories (build_charts.py, line 42). -/
def dowCategories : List String :=
  ["Monday", "Tuesday", "Wednesday", "Thursday", "Friday", "Saturday", "Sunday"]

/-- The ordered precipitation-level categories (build_charts.py, line 60);
`No Data` rows have been dropped beforehand (line 65). -/
def precip_order : List String :=
  ["No Rain", "Light Rain", "Moderate Rain", "Heavy Rain"]

/-- One row of `merged_weather` as consumed by the heatmap aggregation:
the two categorical group columns plus the ridership column (nullable). -/
structure DailyRecord where
  day_of_week : String
  precipitation_level : String
  subways_total_estimated_ridership : Option ℚ
deriving DecidableEq

/-- The grouping key of a record: `(day_of_week, precipitation_level)`. -/
def recKey (r : DailyRecord) : String × String :=
  (r.day_of_week, r.precipitation_level)

/-- All group keys produced by `groupby(..., observed=False)` over the two
categoricals: the full cross product of the category lists. -/
def heatKeys : List (String × String) :=
  dowCategories.flatMap fun d => precip_order.map fun p => (d, p)

/-- The ridership values contributing to one group: the records with that
key whose ridership is non-null (`dropna` before the groupby). -/
def groupVals (rs : List DailyRecord) (k : String × String) : List ℚ :=
  (rs.filter fun r => decide (recKey r = k)).filterMap
    fun r => r.subways_total_estimated_ridership

/-- Embeds `heat_grouped` (build_charts.py, lines 67-73): the mean subway
ridership per (day-of-week, precipitation-level) group.  An empty group's
mean is `0/0 = 0` in `ℚ` (pandas would show NaN there). -/
def heat_grouped (rs : List DailyRecord) : List ((String × String) × ℚ) :=
  heatKeys.map fun k =>
    (k, (groupVals rs k).sum / ((groupVals rs k).length : ℚ))

/-! ### Tidy reshape (prepare_mta_usage, build_charts.py lines 297-331) -/

/-- The three transit modes whose wide columns are melted. -/
inductive Mode
  | subways
  | buses
  | bridges
deriving DecidableEq

/-- The long-form `mode` label of each mode (the `totals` / `percents`
rename maps, build_charts.py lines 302-311). -/
def modeName : Mode → String
  | .subways => "Subways"
  | .buses => "Buses"
  | .bridges => "Bridges & Tunnels"

/-- One row of the wide usage table after the `to_numeric` coercion of the
six value columns (build_charts.py lines 313-314): nullable rationals. -/
structure WideRow where
  date : Nat
  subways_total_estimated_ridership : Option ℚ
  buses_total_estimated_ridership : Option ℚ
  bridges_and_tunnels_total_traffic : Option ℚ
  subways_of_comparable_pre_pandemic_day : Option ℚ
  buses_of_comparable_pre_pandemic_day : Option ℚ
  bridges_and_tunnels_of_comparable_pre_pandemic_day : Option ℚ
deriving DecidableEq

/-- The per-mode total column of a wide row. -/
def totalOf (r : WideRow) : Mode → Option ℚ
  | .subways => r.subways_total_estimated_ridership
  | .buses => r.buses_total_estimated_ridership
  | .bridges => r.bridges_and_tunnels_total_traffic

/-- The per-mode percent-of-comparable-pre-pandemic-day column of a wide
row (stored as a ratio in the source data). -/
def pctOf (r : WideRow) : Mode → Option ℚ
  | .subways => r.subways_of_comparable_pre_pandemic_day
  | .buses => r.buses_of_comparable_pre_pandemic_day
  | .bridges => r.bridges_and_tunnels_of_comparable_pre_pandemic_day

/-- One row of a melted (long-form) table: `id_vars='date'`, a `mode`
column and one value column. -/
structure LongRow where
  date : Nat
  mode : String
  value : Option ℚ
deriving DecidableEq

/-- One row of the merged tidy table `{date, mode, value_total, value_pct}`. -/
structure TidyRow where
  date : Nat
  mode : String
  value_total : Option ℚ
  value_pct : Option ℚ
deriving DecidableEq

/-- The melt order: one block of rows per melted column. -/
def modes : List Mode := [.subways, .buses, .bridges]

/-- `pd.melt` of the three per-mode columns selected by `g`: for each mode
(in column order) one row per wide row. -/
def meltCol (g : WideRow → Mode → Option ℚ) (df : List WideRow) : List LongRow :=
  modes.flatMap fun m => df.map fun r => ⟨r.date, modeName m, g r m⟩

/-- `total_long` (build_charts.py lines 316-320). -/
def total_long (df : List WideRow) : List LongRow := meltCol totalOf df

/-- `pct_long` (build_charts.py lines 321-325). -/
def pct_long (df : List WideRow) : List LongRow := meltCol pctOf df

/-- The inner merge `total_long.merge(pct_long, on=['date', 'mode'])`
(build_charts.py line 326): every pair of rows agreeing on the key. -/
def mergeLong (ts ps : List LongRow) : List TidyRow :=
  ts.flatMap fun t =>
    (ps.filter fun p => p.date == t.date && p.mode == t.mode).map fun p =>
      ⟨t.date, t.mode, t.value, p.value⟩

/-- Embeds `prepare_mta_usage` (build_charts.py lines 297-331): melt the
totals and the percents, merge on `(date, mode)`, then rescale the
percent column from ratios to 0-100. -/
def prepare_mta_usage (df : List WideRow) : List TidyRow :=
  (mergeLong (total_long df) (pct_long df)).map fun t =>
    { t with value_pct := t.value_pct.map fun v => v * 100 }

/-- Pivoting a tidy table back by `(date, mode)`: the value pairs of the
rows carrying the given key. -/
def pivotBack (tidy : List TidyRow) (d : Nat) (m : String) :
    List (Option ℚ × Option ℚ) :=
  (tidy.filter fun t => t.date == d && t.mode == m).map fun t =>
    (t.value_total, t.value_pct)

end BuildCharts

namespace BuildCharts

/-- C3: `bin_precipitation` maps null to `No Data`, zero to `No Rain`,
`(0, 0.1]` to `Light Rain`, `(0.1, 0.5]` to `Moderate Rain` and
`(0.5, ∞)` to `Heavy Rain`; the boundary values 0.1 and 0.5 land in the
lower tier. -/
theorem bin_precipitation_spec (v : ℚ) :
    bin_precipitation none = "No Data" ∧
    (v = 0 → bin_precipitation (some v) = "No Rain") ∧
    (0 < v → v ≤ 1/10 → bin_precipitation (some v) = "Light Rain") ∧
    (1/10 < v → v ≤ 1/2 → bin_precipitation (some v) = "Moderate Rain") ∧
    (1/2 < v → bin_precipitation (some v) = "Heavy Rain") := by
  refine ⟨rfl, ?_, ?_, ?_, ?_⟩
  · intro h; simp [bin_precipitation, h]
  · intro h0 h1
    simp only [bin_precipitation]
    rw [if_neg (by linarith), if_pos h1]
  · intro h0 h1
    simp only [bin_precipitation]
    rw [if_neg (by linarith), if_neg (by linarith), if_pos h1]
  · intro h0
    simp only [bin_precipitation]
    rw [if_neg (by linarith), if_neg (by linarith), if_neg (by linarith)]

/-- Witness for C3 at the boundary value 0.1. -/
theorem bin_precipitation_spec_witness :
    bin_precipitation (some (1/10)) = "Light Rain" :=
  (bin_precipitation_spec (1/10)).2.2.1 (by norm_num) (by norm_num)

/-- C9: a negative precipitation value passes through unvalidated and is
binned as `Light Rain`: it fails the zero test but satisfies `v ≤ 0.1`;
it is never `No Rain`, never `No Data`, and the call returns a label
rather than failing. -/
theorem bin_precipitation_neg (v : ℚ) (h : v < 0) :
    bin_precipitation (some v) = "Light Rain" ∧
    bin_precipitation (some v) ≠ "No Rain" ∧
    bin_precipitation (some v) ≠ "No Data" := by
  have he : bin_precipitation (some v) = "Light Rain" := by
    simp only [bin_precipitation]
    rw [if_neg (by linarith), if_pos (by linarith)]
  refine ⟨he, ?_, ?_⟩ <;> rw [he] <;> decide

/-- Witness for C9 at `v = -1`. -/
theorem bin_precipitation_neg_witness :
    bin_precipitation (some (-1)) = "Light Rain" ∧
    bin_precipitation (some (-1)) ≠ "No Rain" ∧
    bin_precipitation (some (-1)) ≠ "No Data" :=
  bin_precipitation_neg (-1) (by norm_num)

/-- C4: `categorize_period` assigns exactly one of the four timeline
labels to every date, the four half-open intervals partition the date
line, and each of the three boundary instants belongs to the later
bucket. -/
theorem categorize_period_spec (d : Nat) :
    (categorize_period d = "Pre-Pandemic" ∨
     categorize_period d = "During Pandemic" ∨
     categorize_period d = "Recovery Phase" ∨
     categorize_period d = "Post-Pandemic") ∧
    (d < dkey 2020 3 15 → categorize_period d = "Pre-Pandemic") ∧
    (dkey 2020 3 15 ≤ d → d < dkey 2021 7 1 →
      categorize_period d = "During Pandemic") ∧
    (dkey 2021 7 1 ≤ d → d < dkey 2023 1 1 →
      categorize_period d = "Recovery Phase") ∧
    (dkey 2023 1 1 ≤ d → categorize_period d = "Post-Pandemic") := by
  unfold categorize_period dkey
  refine ⟨by split_ifs <;> simp, ?_, ?_, ?_, ?_⟩ <;>
    · intros
      split_ifs <;> first | rfl | (exfalso; omega)

/-- Witness for C4 at the boundary instant 2020-03-15, which belongs to
the later bucket. -/
theorem categorize_period_spec_witness :
    categorize_period (dkey 2020 3 15) = "During Pandemic" :=
  (categorize_period_spec (dkey 2020 3 15)).2.2.1 (by decide) (by decide)

/-- C10: the COVID-band scheme assigns exactly one of its four labels to
every date, with upper-inclusive boundaries: the boundary dates
2021-06-30 and 2022-12-31 belong to the earlier bucket, and every date
after 2022-12-31 is `Post-COVID`. -/
theorem df_v1_period_spec (d : Nat) :
    (df_v1_period d = "Pre-COVID" ∨
     df_v1_period d = "During-COVID" ∨
     df_v1_period d = "Recovery" ∨
     df_v1_period d = "Post-COVID") ∧
    (d < dkey 2020 3 1 → df_v1_period d = "Pre-COVID") ∧
    (dkey 2020 3 1 ≤ d → d ≤ dkey 2021 6 30 → df_v1_period d = "During-COVID") ∧
    (dkey 2021 6 30 < d → d ≤ dkey 2022 12 31 → df_v1_period d = "Recovery") ∧
    (dkey 2022 12 31 < d → df_v1_period d = "Post-COVID") := by
  simp only [df_v1_period, dkey]
  refine ⟨by split_ifs <;> simp, ?_, ?_, ?_, ?_⟩ <;>
    · intros
      split_ifs <;> first | rfl | (exfalso; omega)

/-- Witness for C10 at the boundary date 2021-06-30, which belongs to the
earlier bucket. -/
theorem df_v1_period_spec_witness :
    df_v1_period (dkey 2021 6 30) = "During-COVID" :=
  (df_v1_period_spec (dkey 2021 6 30)).2.2.1 (by decide) (by decide)

/-- C1: full case analysis of `categorize_weather`: null precipitation
gives null; zero precipitation gives `Sunny` regardless of temperature;
with sub-zero temperature and positive precipitation the snow tiers
apply (`< 5` light, `< 15` moderate, else heavy); otherwise the rain
tiers apply (`≤ 2` drizzle, `≤ 8` light, `≤ 20` moderate, `≤ 35` heavy,
else storm). -/
theorem categorize_weather_spec (t : Option ℚ) (x : ℚ) :
    categorize_weather none t = none ∧
    (x = 0 → categorize_weather (some x) t = some "Sunny") ∧
    (tempLtZero t = true → 0 < x →
      ((x < 5 → categorize_weather (some x) t = some "Light Snow") ∧
       (5 ≤ x → x < 15 → categorize_weather (some x) t = some "Moderate Snow") ∧
       (15 ≤ x → categorize_weather (some x) t = some "Heavy Snow"))) ∧
    (tempLtZero t = false → 0 < x →
      ((x ≤ 2 → categorize_weather (some x) t = some "Drizzle") ∧
       (2 < x → x ≤ 8 → categorize_weather (some x) t = some "Light Rain") ∧
       (8 < x → x ≤ 20 → categorize_weather (some x) t = some "Moderate Rain") ∧
       (20 < x → x ≤ 35 → categorize_weather (some x) t = some "Heavy Rain") ∧
       (35 < x → categorize_weather (some x) t = some "Storm"))) := by
  refine ⟨rfl, ?_, ?_, ?_⟩
  · intro h
    simp [categorize_weather, h]
  · intro ht hx
    refine ⟨?_, ?_, ?_⟩
    · intro h5
      simp only [categorize_weather]
      rw [if_neg hx.ne', if_pos ⟨ht, hx⟩, if_pos h5]
    · intro h5 h15
      simp only [categorize_weather]
      rw [if_neg hx.ne', if_pos ⟨ht, hx⟩, if_neg (by linarith), if_pos h15]
    · intro h15
      simp only [categorize_weather]
      rw [if_neg hx.ne', if_pos ⟨ht, hx⟩, if_neg (by linarith),
        if_neg (by linarith)]
  · intro ht hx
    have hsnow : ¬ (tempLtZero t = true ∧ 0 < x) := by simp [ht]
    refine ⟨?_, ?_, ?_, ?_, ?_⟩
    · intro h2
      simp only [categorize_weather]
      rw [if_neg hx.ne', if_neg hsnow, if_pos h2]
    · intro h2 h8
      simp only [categorize_weather]
      rw [if_neg hx.ne', if_neg hsnow, if_neg (by linarith), if_pos h8]
    · intro h8 h20
      simp only [categorize_weather]
      rw [if_neg hx.ne', if_neg hsnow, if_neg (by linarith),
        if_neg (by linarith), if_pos h20]
    · intro h20 h35
      simp only [categorize_weather]
      rw [if_neg hx.ne', if_neg hsnow, if_neg (by linarith),
        if_neg (by linarith), if_neg (by linarith), if_pos h35]
    · intro h35
      simp only [categorize_weather]
      rw [if_neg hx.ne', if_neg hsnow, if_neg (by linarith),
        if_neg (by linarith), if_neg (by linarith), if_neg (by linarith)]

/-- Witness for C1: precipitation 10 with temperature -5 is in the snow
branch, moderate tier. -/
theorem categorize_weather_spec_witness :
    categorize_weather (some 10) (some (-5)) = some "Moderate Snow" :=
  ((categorize_weather_spec (some (-5)) 10).2.2.1 (by decide)
    (by norm_num)).2.1 (by norm_num) (by norm_num)

/-- C2 counterexample: `categorize_weather` applied to precipitation 10
and temperature 5 does not return `Light Rain` (it returns
`Moderate Rain`, since 10 exceeds the light-rain cap of 8). -/
theorem categorize_weather_ten_five :
    categorize_weather (some 10) (some 5) ≠ some "Light Rain" := by
  decide

/-- C2 amended: the worked examples of the weather categorizer, with the
`(10, 5)` case corrected from `Light Rain` to `Moderate Rain`:
`categorize_weather(0, anything) = Sunny`,
`categorize_weather(10, -5) = Moderate Snow`,
`categorize_weather(10, 5) = Moderate Rain`, and
`categorize_weather(null, anything) = null`. -/
theorem categorize_weather_examples :
    (∀ t : Option ℚ, categorize_weather (some 0) t = some "Sunny") ∧
    categorize_weather (some 10) (some (-5)) = some "Moderate Snow" ∧
    categorize_weather (some 10) (some 5) = some "Moderate Rain" ∧
    (∀ t : Option ℚ, categorize_weather none t = none) :=
  ⟨fun t => by simp [categorize_weather], by decide, by decide, fun _ => rfl⟩

/-- C5: with positive precipitation and null temperature the snow branch
is skipped (the comparison `temp < 0` is false on null), and the result
is the rain-tier label determined by the precipitation alone — one of
Drizzle / Light Rain / Moderate Rain / Heavy Rain / Storm — never a
snow label and never null. -/
theorem categorize_weather_null_temp (x : ℚ) (hx : 0 < x) :
    categorize_weather (some x) none ∈
      [some "Drizzle", some "Light Rain", some "Moderate Rain",
       some "Heavy Rain", some "Storm"] ∧
    categorize_weather (some x) none ∉
      [some "Light Snow", some "Moderate Snow", some "Heavy Snow"] ∧
    categorize_weather (some x) none ≠ none ∧
    (x ≤ 2 → categorize_weather (some x) none = some "Drizzle") ∧
    (2 < x → x ≤ 8 → categorize_weather (some x) none = some "Light Rain") ∧
    (8 < x → x ≤ 20 → categorize_weather (some x) none = some "Moderate Rain") ∧
    (20 < x → x ≤ 35 → categorize_weather (some x) none = some "Heavy Rain") ∧
    (35 < x → categorize_weather (some x) none = some "Storm") := by
  have hsnow : ¬ (tempLtZero (none : Option ℚ) = true ∧ 0 < x) := by
    simp [tempLtZero]
  have hcw : categorize_weather (some x) none =
      if x ≤ 2 then some "Drizzle"
      else if x ≤ 8 then some "Light Rain"
      else if x ≤ 20 then some "Moderate Rain"
      else if x ≤ 35 then some "Heavy Rain"
      else some "Storm" := by
    simp only [categorize_weather]
    rw [if_neg hx.ne', if_neg hsnow]
  rw [hcw]
  refine ⟨?_, ?_, ?_, ?_, ?_, ?_, ?_, ?_⟩
  · split_ifs <;> simp
  · split_ifs <;> simp
  · split_ifs <;> simp
  all_goals intros
  all_goals split_ifs <;> first | rfl | (exfalso; linarith)

/-- Witness for C5 at precipitation 1 with null temperature. -/
theorem categorize_weather_null_temp_witness :
    categorize_weather (some 1) none = some "Drizzle" :=
  (categorize_weather_null_temp 1 (by norm_num)).2.2.2.1 (by norm_num)

/-! ### Lemmas about the tidy reshape -/

/-- When the dates of the wide table are pairwise distinct, filtering by
one row's date yields exactly that row. -/
theorem filter_by_date_of_nodup {df : List WideRow}
    (hd : (df.map WideRow.date).Nodup) {r : WideRow} (hr : r ∈ df) :
    df.filter (fun r2 => r2.date == r.date) = [r] := by
  induction df with
  | nil => cases hr
  | cons a tl ih =>
    simp only [List.map_cons, List.nodup_cons] at hd
    rcases List.mem_cons.mp hr with rfl | hmem
    · rw [List.filter_cons, if_pos (by simp)]
      have htl : tl.filter (fun r2 => r2.date == r.date) = [] := by
        rw [List.filter_eq_nil_iff]
        intro b hb hbeq
        exact hd.1 (List.mem_map.mpr ⟨b, hb, by simpa using hbeq⟩)
      rw [htl]
    · have hne : ¬ (a.date == r.date) = true := by
        intro hbeq
        exact hd.1 (List.mem_map.mpr ⟨r, hmem, by simpa using (beq_iff_eq.mp hbeq).symm⟩)
      rw [List.filter_cons, if_neg hne]
      exact ih hd.2 hmem

/-- Filtering a melted column by the `(date, mode)` key of a source row
yields exactly that row's melted record (dates pairwise distinct). -/
theorem meltCol_filter_key (g : WideRow → Mode → Option ℚ) {df : List WideRow}
    (hd : (df.map WideRow.date).Nodup) {r : WideRow} (hr : r ∈ df) (m : Mode) :
    (meltCol g df).filter
        (fun t => t.date == r.date && t.mode == modeName m) =
      [⟨r.date, modeName m, g r m⟩] := by
  have hfilter := filter_by_date_of_nodup hd hr
  cases m <;>
  · simp only [meltCol, modes, modeName, List.flatMap_cons, List.flatMap_nil,
      List.filter_append, List.append_nil, List.filter_map, Function.comp_def]
    simp only [show (("Subways" : String) == "Subways") = true by decide,
      show (("Subways" : String) == "Buses") = false by decide,
      show (("Buses" : String) == "Subways") = false by decide,
      show (("Buses" : String) == "Buses") = true by decide,
      show (("Buses" : String) == "Bridges & Tunnels") = false by decide,
      show (("Subways" : String) == "Bridges & Tunnels") = false by decide,
      show (("Bridges & Tunnels" : String) == "Subways") = false by decide,
      show (("Bridges & Tunnels" : String) == "Buses") = false by decide,
      show (("Bridges & Tunnels" : String) == "Bridges & Tunnels") = true by decide,
      Bool.and_true, Bool.and_false, List.filter_false, hfilter]
    simp

/-- Filtering the merged tidy table by a `(date, mode)` key agrees with
merging the filtered left table: merged rows carry the left row's key. -/
theorem mergeLong_filter (ts ps : List LongRow) (d : Nat) (ms : String) :
    (mergeLong ts ps).filter (fun t => t.date == d && t.mode == ms) =
      mergeLong (ts.filter fun t => t.date == d && t.mode == ms) ps := by
  induction ts with
  | nil => rfl
  | cons t ts ih =>
    have hcons : ∀ (u : LongRow) (us : List LongRow),
        mergeLong (u :: us) ps =
          ((ps.filter fun p => p.date == u.date && p.mode == u.mode).map
            fun p => ⟨u.date, u.mode, u.value, p.value⟩) ++ mergeLong us ps := by
      intro u us
      simp [mergeLong]
    rw [hcons, List.filter_append, ih, List.filter_map, List.filter_cons]
    by_cases hc : (t.date == d && t.mode == ms) = true
    · rw [if_pos hc, hcons]
      congr 1
      simp only [Function.comp_def, hc, List.filter_true]
    · rw [if_neg hc]
      have hc2 : (t.date == d && t.mode == ms) = false := by
        simpa using hc
      simp only [Function.comp_def, hc2, List.filter_false, List.map_nil,
        List.nil_append]

/-- Core of the reshape round trip: the merged tidy table restricted to a
source row's `(date, mode)` key holds exactly that row's total and
percent (dates pairwise distinct). -/
theorem mergeLong_key {df : List WideRow}
    (hd : (df.map WideRow.date).Nodup) {r : WideRow} (hr : r ∈ df) (m : Mode) :
    (mergeLong (total_long df) (pct_long df)).filter
        (fun t => t.date == r.date && t.mode == modeName m) =
      [⟨r.date, modeName m, totalOf r m, pctOf r m⟩] := by
  rw [mergeLong_filter, total_long, meltCol_filter_key totalOf hd hr m]
  simp only [mergeLong, List.flatMap_cons, List.flatMap_nil, List.append_nil]
  rw [pct_long, meltCol_filter_key pctOf hd hr m]
  simp

/-- C6: tidy reshape round trip: on a wide usage table with pairwise
distinct dates, melting the per-mode total and percent columns into long
form and pivoting back by `(date, mode)` recovers each source row's
total and percent values exactly. -/
theorem tidy_reshape_roundtrip (df : List WideRow)
    (hd : (df.map WideRow.date).Nodup) (r : WideRow) (hr : r ∈ df) (m : Mode) :
    pivotBack (mergeLong (total_long df) (pct_long df)) r.date (modeName m) =
      [(totalOf r m, pctOf r m)] := by
  unfold pivotBack
  rw [mergeLong_key hd hr m]
  rfl

/-- Witness for C6 on a one-row wide table, subways mode. -/
theorem tidy_reshape_roundtrip_witness :
    pivotBack
        (mergeLong
          (total_long [⟨20200101, some 1, some 2, some 3, some (1/2), none, some (3/4)⟩])
          (pct_long [⟨20200101, some 1, some 2, some 3, some (1/2), none, some (3/4)⟩]))
        20200101 "Subways" =
      [(some 1, some (1/2))] :=
  tidy_reshape_roundtrip
    [⟨20200101, some 1, some 2, some 3, some (1/2), none, some (3/4)⟩]
    (by simp)
    ⟨20200101, some 1, some 2, some 3, some (1/2), none, some (3/4)⟩
    (by simp) .subways

/-- C8: in the output of `prepare_mta_usage` the `value_pct` field is 100
times the ratio stored in the source row, while `value_total` is the
source total unchanged (dates pairwise distinct). -/
theorem prepare_mta_usage_values (df : List WideRow)
    (hd : (df.map WideRow.date).Nodup) (r : WideRow) (hr : r ∈ df) (m : Mode) :
    pivotBack (prepare_mta_usage df) r.date (modeName m) =
      [(totalOf r m, (pctOf r m).map fun v => v * 100)] := by
  unfold prepare_mta_usage pivotBack
  rw [List.filter_map]
  simp only [Function.comp_def]
  rw [mergeLong_key hd hr m]
  simp

/-- Witness for C8 on a one-row wide table, buses mode (whose percent is
null and stays null after rescaling). -/
theorem prepare_mta_usage_values_witness :
    pivotBack
        (prepare_mta_usage
          [⟨20200101, some 1, some 2, some 3, some (1/2), none, some (3/4)⟩])
        20200101 "Buses" =
      [(some 2, none)] :=
  prepare_mta_usage_values
    [⟨20200101, some 1, some 2, some 3, some (1/2), none, some (3/4)⟩]
    (by simp)
    ⟨20200101, some 1, some 2, some 3, some (1/2), none, some (3/4)⟩
    (by simp) .buses

/-! ### Lemmas about the grouped mean -/

/-- A sum over a list distributes over pointwise addition. -/
theorem sum_map_add_rat {κ : Type} (K : List κ) (f g : κ → ℚ) :
    (K.map fun k => f k + g k).sum = (K.map f).sum + (K.map g).sum := by
  induction K with
  | nil => simp
  | cons a tl ih =>
    simp only [List.map_cons, List.sum_cons, ih]
    ring

/-- Summing an indicator over a duplicate-free list containing the marked
element picks out the single value. -/
theorem sum_map_indicator {κ : Type} [DecidableEq κ] :
    ∀ (K : List κ), K.Nodup → ∀ {x : κ}, x ∈ K → ∀ (c : ℚ),
      (K.map fun k => if x = k then c else 0).sum = c := by
  intro K
  induction K with
  | nil =>
    intro _ x hx
    cases hx
  | cons a tl ih =>
    intro hnd x hx c
    simp only [List.nodup_cons] at hnd
    rcases List.mem_cons.mp hx with rfl | hmem
    · have hzero : (tl.map fun k => if x = k then c else 0).sum = 0 := by
        apply List.sum_eq_zero
        intro y hy
        rcases List.mem_map.mp hy with ⟨k, hk, rfl⟩
        exact if_neg fun he : x = k => hnd.1 (show x ∈ tl from he ▸ hk)
      rw [List.map_cons, List.sum_cons, hzero, add_zero, if_pos rfl]
    · have hne : x ≠ a := fun he => hnd.1 (show a ∈ tl from he ▸ hmem)
      simp only [List.map_cons, List.sum_cons, if_neg hne]
      rw [ih hnd.2 hmem, zero_add]

/-- Partition identity: summing, over a duplicate-free list of keys that
covers every record, the sums of the non-null values in each key's fiber
gives the sum of all non-null values. -/
theorem sum_groups {α κ : Type} [DecidableEq κ] (key : α → κ) (v : α → Option ℚ)
    (K : List κ) (hK : K.Nodup) :
    ∀ l : List α, (∀ a ∈ l, key a ∈ K) →
      (K.map fun k => ((l.filter fun a => decide (key a = k)).filterMap v).sum).sum
        = (l.filterMap v).sum := by
  intro l
  induction l with
  | nil =>
    intro _
    simp
  | cons a tl ih =>
    intro hcov
    have hmem : key a ∈ K := hcov a (List.mem_cons_self a tl)
    have hstep : ∀ k ∈ K,
        (((a :: tl).filter fun x => decide (key x = k)).filterMap v).sum
          = (if key a = k then (v a).getD 0 else 0)
            + ((tl.filter fun x => decide (key x = k)).filterMap v).sum := by
      intro k _
      by_cases h : key a = k
      · rw [List.filter_cons, if_pos (by simpa using h), if_pos h]
        cases hv : v a <;> simp [List.filterMap_cons, hv]
      · rw [List.filter_cons, if_neg (by simpa using h), if_neg h, zero_add]
    rw [congrArg List.sum (List.map_congr_left hstep), sum_map_add_rat,
      sum_map_indicator K hK hmem,
      ih fun x hx => hcov x (List.mem_cons_of_mem a hx)]
    cases hv : v a <;> simp [List.filterMap_cons, hv]

/-- C7: mean-aggregation identity: after dropping null ridership and
grouping by (day-of-week, precipitation level), the sum over all groups
of (group mean × group count) equals the sum of all non-null subway
ridership values in the source. -/
theorem heat_grouped_mean_identity (rs : List DailyRecord)
    (hcov : ∀ r ∈ rs, recKey r ∈ heatKeys) :
    ((heat_grouped rs).map fun g => g.2 * ((groupVals rs g.1).length : ℚ)).sum
      = (rs.filterMap fun r => r.subways_total_estimated_ridership).sum := by
  have h1 : (heat_grouped rs).map (fun g => g.2 * ((groupVals rs g.1).length : ℚ))
      = heatKeys.map fun k => (groupVals rs k).sum := by
    rw [heat_grouped, List.map_map]
    apply List.map_congr_left
    intro k _
    simp only [Function.comp_def]
    rcases Nat.eq_zero_or_pos (groupVals rs k).length with h0 | hpos
    · rw [List.length_eq_zero.mp h0]
      simp
    · exact div_mul_cancel₀ _ (Nat.cast_ne_zero.mpr hpos.ne')
  rw [h1]
  have hpart := sum_groups recKey
    (fun r => r.subways_total_estimated_ridership) heatKeys (by decide) rs hcov
  simpa [groupVals] using hpart

/-- Witness for C7 on three records: two non-null riderships in distinct
groups and one null ridership that is dropped. -/
theorem heat_grouped_mean_identity_witness :
    ((heat_grouped
        [⟨"Monday", "No Rain", some 1000⟩, ⟨"Tuesday", "Light Rain", some 2000⟩,
         ⟨"Monday", "No Rain", none⟩]).map
      fun g => g.2 * ((groupVals
        [⟨"Monday", "No Rain", some 1000⟩, ⟨"Tuesday", "Light Rain", some 2000⟩,
         ⟨"Monday", "No Rain", none⟩] g.1).length : ℚ)).sum
      = (([⟨"Monday", "No Rain", some 1000⟩, ⟨"Tuesday", "Light Rain", some 2000⟩,
           ⟨"Monday", "No Rain", none⟩] : List DailyRecord).filterMap
          fun r => r.subways_total_estimated_ridership).sum :=
  heat_grouped_mean_identity
    [⟨"Monday", "No Rain", some 1000⟩, ⟨"Tuesday", "Light Rain", some 2000⟩,
     ⟨"Monday", "No Rain", none⟩]
    (by decide)

end BuildCharts
